import Mathlib

/-!
Verification of the DigitalTwinAnalyzer dashboard core: a shallow embedding of
the Eclipse-Ditto REST client (`common.js`, object `DittoAPI`), the dashboard
controller (`dashboard.js`), the metrics collector (`metrics.js`, object
`MetricsCollector`) and the temperature property mapper
(`DTProperties.mapTemperature`), together with proofs of the documented
behavioural properties.

Modelling conventions:
* JavaScript numbers are modelled by `ℚ`; on the modelled code paths the
  arithmetic performed by the source (sums, divisions, `Math.round`,
  `Math.min`) is exact.
* `Math.round` is `jsRound` (nearest integer, half rounds towards +∞);
  `parseInt` applied to the decimal rendering of a finite number is
  `jsParseInt` (truncation towards zero).
* Asynchronous effects (HTTP responses, timer firings, `requestAnimationFrame`
  timestamps, `performance.memory` readings) are supplied as explicit
  event/response parameters.  A JavaScript exception inside a `try` block is
  an `Except.error`; the surrounding `catch` converts every error into the
  `null` (`none`) sentinel.
* DOM state (slider positions, value labels) is modelled by the numeric value
  each element holds; backend PUT requests are recorded as explicit `Write`
  outputs of each event step.
-/

/-- JavaScript `Math.round`: nearest integer, half rounds towards +∞. -/
def jsRound (q : ℚ) : ℚ := ((⌊q + 1/2⌋ : ℤ) : ℚ)

/-- JavaScript `parseInt` applied to the decimal rendering of a finite
number: truncation towards zero. -/
def jsParseInt (q : ℚ) : ℤ := if 0 ≤ q then ⌊q⌋ else ⌈q⌉

/-- `arr.reduce((sum, val) => sum + val, 0)` — left fold of addition. -/
def listSum (l : List ℚ) : ℚ := l.foldl (· + ·) 0

/-- The `push`-then-`shift` idiom used for every rolling window in
`metrics.js`: append the new sample at the end, then remove the front
(oldest) element whenever the configured sample size is exceeded. -/
def pushWindow (size : ℕ) (w : List ℚ) (x : ℚ) : List ℚ :=
  if (w ++ [x]).length > size then (w ++ [x]).tail else w ++ [x]

/-- `MetricsCollector.config.sampleSize`: number of samples kept for
averaging. -/
def sampleSize : ℕ := 60

/-- `MetricsCollector.config.memoryCheckInterval` (ms). -/
def memoryCheckInterval : ℚ := 1000

/-- `MetricsCollector.metrics`: the rolling windows, the recorded load time
and the framework label (`undefined`, i.e. `none`, until `start` sets it). -/
structure Metrics where
  fps : List ℚ
  memory : List ℚ
  loadTime : ℚ
  latency : List ℚ
  framework : Option String
deriving DecidableEq

/-- The initial `MetricsCollector.metrics` object; `reset()` restores exactly
this value (it replaces the whole object, so the framework label is cleared
too). -/
def initialMetrics : Metrics :=
  { fps := [], memory := [], loadTime := 0, latency := [], framework := none }

/-- The mutable part of `MetricsCollector.config` (the sample size and the
memory-check cadence are the constants above). -/
structure MetricsConfig where
  frameTimeHistory : List ℚ
  lastFrameTime : ℚ
  lastMemoryCheck : ℚ
  isRunning : Bool
deriving DecidableEq

/-- `MetricsCollector.recordLoadTime`: stores the (raw, unrounded) load time;
only the DOM display of it is rounded. -/
def recordLoadTime (m : Metrics) (loadTime : ℚ) : Metrics :=
  { m with loadTime := loadTime }

/-- `MetricsCollector.recordLatency`: push the sample, trim the window to the
sample size, and return (second component) the rounded average latency shown
in the DOM. -/
def recordLatency (m : Metrics) (latencyMs : ℚ) : Metrics × ℚ :=
  let lat := pushWindow sampleSize m.latency latencyMs
  ({ m with latency := lat }, jsRound (listSum lat / (lat.length : ℚ)))

/-- `MetricsCollector.checkMemoryUsage`: when the heap-introspection API is
available (`usedJSHeapSize = some bytes`), push the heap use rounded to MB
into the memory window; otherwise do nothing. -/
def checkMemoryUsage (m : Metrics) (usedJSHeapSize : Option ℚ) : Metrics :=
  match usedJSHeapSize with
  | some bytes =>
      { m with memory := pushWindow sampleSize m.memory (jsRound (bytes / (1024 * 1024))) }
  | none => m

/-- `MetricsCollector.trackFrame`: one animation-frame callback.  `timestamp`
is the frame timestamp, `now` the `performance.now()` reading used for the
memory-check cadence.  Does nothing when collection is not running. -/
def trackFrame (m : Metrics) (cfg : MetricsConfig) (timestamp now : ℚ)
    (usedJSHeapSize : Option ℚ) : Metrics × MetricsConfig :=
  if cfg.isRunning = false then (m, cfg)
  else
    let frameTime := timestamp - cfg.lastFrameTime
    let hist := pushWindow sampleSize cfg.frameTimeHistory frameTime
    let avgFrameTime := listSum hist / (hist.length : ℚ)
    let currentFPS := 1000 / avgFrameTime
    let m₁ : Metrics := { m with fps := pushWindow sampleSize m.fps currentFPS }
    let checkMem : Bool := decide (now - cfg.lastMemoryCheck > memoryCheckInterval)
    let m₂ := if checkMem then checkMemoryUsage m₁ usedJSHeapSize else m₁
    (m₂, { cfg with frameTimeHistory := hist, lastFrameTime := timestamp,
                    lastMemoryCheck := if checkMem then now else cfg.lastMemoryCheck })

/-- `MetricsCollector.getAverageFPS`: 0 on an empty window, otherwise the
rounded arithmetic mean of the window. -/
def getAverageFPS (m : Metrics) : ℚ :=
  if m.fps.length = 0 then 0
  else jsRound (listSum m.fps / (m.fps.length : ℚ))

/-- `MetricsCollector.getAverageMemory`: 0 on an empty window, otherwise the
rounded arithmetic mean of the window. -/
def getAverageMemory (m : Metrics) : ℚ :=
  if m.memory.length = 0 then 0
  else jsRound (listSum m.memory / (m.memory.length : ℚ))

/-- `MetricsCollector.getAverageLatency`: 0 on an empty window, otherwise the
rounded arithmetic mean of the window. -/
def getAverageLatency (m : Metrics) : ℚ :=
  if m.latency.length = 0 then 0
  else jsRound (listSum m.latency / (m.latency.length : ℚ))

/-- The single data row of `MetricsCollector.exportToCSV` (its comma-joined
fields, kept structured; the numeric fields are rendered in decimal by the
source's template string). -/
structure CSVRow where
  framework : Option String
  timestamp : String
  fps : ℚ
  memoryMB : ℚ
  loadTimeMs : ℚ
  latencyMs : ℚ
deriving DecidableEq

/-- One line of the CSV export: the literal header line
`Framework,Timestamp,FPS,Memory(MB),LoadTime(ms),LatencyAvg(ms)` or a data
row. -/
inductive CSVLine where
  | header
  | row (r : CSVRow)
deriving DecidableEq

/-- `MetricsCollector.exportToCSV`: the header line followed by exactly one
data row built from the current aggregates; `timestamp` is the
`new Date().toISOString()` reading. -/
def exportToCSV (m : Metrics) (timestamp : String) : List CSVLine :=
  [CSVLine.header,
   CSVLine.row { framework := m.framework, timestamp := timestamp,
                 fps := getAverageFPS m, memoryMB := getAverageMemory m,
                 loadTimeMs := m.loadTime, latencyMs := getAverageLatency m }]

/-- The twin document as consumed by the dashboard: the three optional
property paths `features.Mixer.properties.Temperature`,
`features.Mixer.properties.RPM` and `features.Alarm.properties.alarm_status`
(each may be absent, matching the source's optional-chaining checks). -/
structure TwinState where
  mixerTemperature : Option ℚ
  mixerRPM : Option ℚ
  alarmStatus : Option String
deriving DecidableEq

/-- Outcome of one `fetch` of the thing resource: either a response (with
`ok` flag, status and an optional parsed JSON body — `none` when `json()`
would throw) or a thrown network error. -/
inductive HttpResponse where
  | response (ok : Bool) (status : ℕ) (body : Option TwinState)
  | networkFailure
deriving DecidableEq

/-- The `try` block of `DittoAPI.getTwinState`: throws (`Except.error`) on a
network failure, on `!response.ok`, or on an unparsable body; otherwise
returns the parsed twin state. -/
def getTwinStateBody : HttpResponse → Except String TwinState
  | .networkFailure => .error "network error"
  | .response ok status body =>
      if ok = false then .error ("HTTP error! Status: " ++ toString status)
      else
        match body with
        | some s => .ok s
        | none => .error "invalid JSON body"

/-- `DittoAPI.getTwinState`: the `catch` handler logs the error and returns
`null` (`none`); no exception reaches the caller. -/
def getTwinState (r : HttpResponse) : Option TwinState :=
  match getTwinStateBody r with
  | .ok s => some s
  | .error _ => none

/-- Outcome of the PUT `fetch` in `DittoAPI.updateProperty`: a completed
response with a status code, or a thrown network error. -/
inductive PutResult where
  | response (status : ℕ)
  | networkFailure
deriving DecidableEq

/-- `DittoAPI.updateProperty`: on a completed request, record the round-trip
latency with the metrics collector and return `status === 204`; on a thrown
network error the `catch` handler returns `false` (and no latency is
recorded). -/
def updateProperty (r : PutResult) (roundTripMs : ℚ) (m : Metrics) : Bool × Metrics :=
  match r with
  | .response status => (status == 204, (recordLatency m roundTripMs).1)
  | .networkFailure => (false, m)

/-- The polling-related state of the `DittoAPI` object: `_pollingInterval`
(the timer id, `null` when no interval is active), whether `_pollingCallback`
is non-null, and `_isPaused`. -/
structure DittoAPIState where
  pollingInterval : Option ℕ
  pollingCallback : Bool
  isPaused : Bool
deriving DecidableEq

/-- `DittoAPI`'s initial state: no interval, no callback, not paused. -/
def initAPIState : DittoAPIState :=
  { pollingInterval := none, pollingCallback := false, isPaused := false }

/-- `DittoAPI.startPolling(callback)`: store the callback, clear any existing
interval, reset the paused flag and start a fresh interval (`timerId` is the
fresh id returned by `setInterval`). -/
def startPolling (_s : DittoAPIState) (timerId : ℕ) : DittoAPIState :=
  { pollingInterval := some timerId, pollingCallback := true, isPaused := false }

/-- `DittoAPI.stopPolling`: when an interval is active, clear it and null out
both the interval id and the callback; otherwise do nothing. -/
def stopPolling (s : DittoAPIState) : DittoAPIState :=
  if s.pollingInterval.isSome then
    { pollingInterval := none, pollingCallback := false, isPaused := s.isPaused }
  else s

/-- `DittoAPI.pausePolling`: set the paused flag. -/
def pausePolling (s : DittoAPIState) : DittoAPIState :=
  { s with isPaused := true }

/-- `DittoAPI.resumePolling`: clear the paused flag and, when a polling
callback is registered, immediately fetch the twin state once out of band.
Besides the new state it returns the number of fetches issued by this call
and the state passed to the callback (`none` when the callback was not
invoked, in particular when the fetch returned `null`). -/
def resumePolling (s : DittoAPIState) (r : HttpResponse) :
    DittoAPIState × ℕ × Option TwinState :=
  let s' := { s with isPaused := false }
  if s.pollingCallback then (s', 1, getTwinState r) else (s', 0, none)

/-- One firing of the interval installed by `DittoAPI.startPolling`: skip
entirely while paused, otherwise fetch and forward a non-null result to the
registered callback.  Returns the number of fetches issued and the state
delivered to the callback (`none` when it was not invoked); the `DittoAPI`
state itself is not mutated by a tick. -/
def pollTick (s : DittoAPIState) (r : HttpResponse) : ℕ × Option TwinState :=
  if s.isPaused then (0, none)
  else
    match getTwinState r with
    | some st => (1, if s.pollingCallback then some st else none)
    | none => (1, none)

/-- The externally observable events driving the `DittoAPI` polling state. -/
inductive APIEvent where
  | start (timerId : ℕ)
  | stop
  | pause
  | resume (r : HttpResponse)
  | tick (r : HttpResponse)

/-- State transition of the `DittoAPI` object for one event (outputs
dropped). -/
def applyAPIEvent (s : DittoAPIState) : APIEvent → DittoAPIState
  | .start tid => startPolling s tid
  | .stop => stopPolling s
  | .pause => pausePolling s
  | .resume r => (resumePolling s r).1
  | .tick _ => s

/-- Whether, after an event, a polling callback registered by `startPolling`
has not yet been cleared by `stopPolling`. -/
def callbackFlagStep (b : Bool) (e : APIEvent) : Bool :=
  match e with
  | .start _ => true
  | .stop => false
  | _ => b

/-- The `DittoAPI` state reached from the initial state by a sequence of
events. -/
def runAPI (es : List APIEvent) : DittoAPIState :=
  es.foldl applyAPIEvent initAPIState

/-- A `startPolling` call occurs in the trace and is not followed by a
`stopPolling` call. -/
def startedNotStopped (es : List APIEvent) : Bool :=
  es.foldl callbackFlagStep false

/-- The visual parameters produced by `DTProperties.mapTemperature`. -/
structure TempVisual where
  color : ℕ
  intensity : ℚ
  emissive : Bool
deriving DecidableEq

/-- `DTProperties.mapTemperature(temp, framework)`: three-band colour
thresholds, normalized intensity `min(1, temp/200)` and emissive flag
`temp > 150` (the `framework` parameter is unused by the source as well). -/
def mapTemperature (temp : ℚ) (_framework : String) : TempVisual :=
  { color := if temp < 50 then 0x0088ff else if temp < 100 then 0xffaa00 else 0xff0000,
    intensity := min 1 (temp / 200),
    emissive := decide (temp > 150) }

/-- A backend write issued through `DittoAPI.updateProperty(featureId,
propertyName, value)`. -/
inductive WriteValue where
  | num (n : ℤ)
  | str (s : String)
deriving DecidableEq

/-- One PUT request dispatched by a dashboard handler. -/
structure Write where
  featureId : String
  propertyName : String
  value : WriteValue
deriving DecidableEq

/-- The dashboard control surface: the two sliders (DOM `value`), their text
labels (modelled by the numeric value they display) and the alarm-status
dropdown. -/
structure UIControls where
  tempControl : ℚ
  tempDisplay : ℚ
  rpmControl : ℚ
  rpmDisplay : ℚ
  alarmStatus : String
deriving DecidableEq

/-- The Three.js adapter's `modelState` cache of last-known twin values. -/
structure ModelState where
  temperature : ℚ
  rpm : ℚ
  status : String
deriving DecidableEq

/-- `updateMixerFromTwin` of the framework adapter (`visualizer.js`): update
each cached property only when present in the twin document. -/
def updateMixerFromTwin (ms : ModelState) (ts : TwinState) : ModelState :=
  let ms₁ := match ts.mixerTemperature with
             | some t => { ms with temperature := t }
             | none => ms
  let ms₂ := match ts.mixerRPM with
             | some r => { ms₁ with rpm := r }
             | none => ms₁
  match ts.alarmStatus with
  | some s => { ms₂ with status := s }
  | none => ms₂

/-- `updateDashboardUI` (`dashboard.js`): write each present twin property
into the corresponding control, each write re-guarded by
`!dashboardState.isUserInteracting`. -/
def updateDashboardUI (ts : TwinState) (isUserInteracting : Bool)
    (ui : UIControls) : UIControls :=
  let ui₁ := match ts.mixerTemperature with
             | some t =>
                 if isUserInteracting = false then
                   { ui with tempControl := t, tempDisplay := t }
                 else ui
             | none => ui
  let ui₂ := match ts.mixerRPM with
             | some r =>
                 if isUserInteracting = false then
                   { ui₁ with rpmControl := r, rpmDisplay := r }
                 else ui₁
             | none => ui₁
  match ts.alarmStatus with
  | some s =>
      if isUserInteracting = false then { ui₂ with alarmStatus := s } else ui₂
  | none => ui₂

/-- The combined dashboard state (`dashboardState` of `dashboard.js` plus the
UI controls, the active adapter's cache and the `DittoAPI` polling state).
`userInteractionTimeout` is whether the 500 ms quiescence timer is armed;
`controlUpdateTimeout` is the pending debounced write, if any. -/
structure DashboardState where
  isUserInteracting : Bool
  userInteractionTimeout : Bool
  controlUpdateTimeout : Option Write
  ui : UIControls
  model : ModelState
  api : DittoAPIState
deriving DecidableEq

/-- The callback `startDittoPolling` registers with `DittoAPI.startPolling`:
apply a delivered twin state to the active adapter and the dashboard UI only
when the user is not interacting with the controls. -/
def pollCallback (d : DashboardState) (st : TwinState) : DashboardState :=
  if d.isUserInteracting = false then
    { d with model := updateMixerFromTwin d.model st,
             ui := updateDashboardUI st d.isUserInteracting d.ui }
  else d

/-- `startUserInteraction` (`dashboard.js`): set the interaction flag, cancel
any armed quiescence timer and pause polling. -/
def startUserInteraction (d : DashboardState) : DashboardState :=
  { d with isUserInteracting := true, userInteractionTimeout := false,
           api := pausePolling d.api }

/-- `endUserInteraction` (`dashboard.js`): (re-)arm the 500 ms quiescence
timer; the interaction flag stays set until the timer fires. -/
def endUserInteraction (d : DashboardState) : DashboardState :=
  { d with userInteractionTimeout := true }

/-- `debounceControlUpdate` (`dashboard.js`): cancel any pending debounced
write and schedule `w` on a fresh 100 ms timer. -/
def debounceControlUpdate (d : DashboardState) (w : Write) : DashboardState :=
  { d with controlUpdateTimeout := some w }

/-- The discrete events driving the dashboard: slider `input`/`change`
events, the alarm dropdown, the two timers firing, and a polling-interval
tick (timers and ticks carry the HTTP response the environment would supply
to any fetch they trigger). -/
inductive DashEvent where
  | tempInput (v : ℤ)
  | tempChange
  | rpmInput (v : ℤ)
  | rpmChange
  | alarmChange (s : String)
  | debounceFire
  | interactionTimerFire (r : HttpResponse)
  | pollTick (r : HttpResponse)

/-- One dashboard event step (`setupEventListeners` handlers,
`startDittoPolling`'s polling closure, and the two timer callbacks of
`dashboard.js`).  Returns the new state and the backend writes issued
immediately during the step. -/
def dashStep (d : DashboardState) : DashEvent → DashboardState × List Write
  | .tempInput v =>
      let d₁ := { d with ui := { d.ui with tempControl := (v : ℚ), tempDisplay := (v : ℚ) } }
      let d₂ := startUserInteraction d₁
      (debounceControlUpdate d₂ ⟨"Mixer", "Temperature", .num v⟩, [])
  | .tempChange =>
      (endUserInteraction d,
       [⟨"Mixer", "Temperature", .num (jsParseInt d.ui.tempControl)⟩])
  | .rpmInput v =>
      let d₁ := { d with ui := { d.ui with rpmControl := (v : ℚ), rpmDisplay := (v : ℚ) } }
      let d₂ := startUserInteraction d₁
      (debounceControlUpdate d₂ ⟨"Mixer", "RPM", .num v⟩, [])
  | .rpmChange =>
      (endUserInteraction d, [⟨"Mixer", "RPM", .num (jsParseInt d.ui.rpmControl)⟩])
  | .alarmChange s =>
      ({ d with ui := { d.ui with alarmStatus := s } },
       [⟨"Alarm", "alarm_status", .str s⟩])
  | .debounceFire =>
      match d.controlUpdateTimeout with
      | some w => ({ d with controlUpdateTimeout := none }, [w])
      | none => (d, [])
  | .interactionTimerFire r =>
      if d.userInteractionTimeout then
        let d₁ := { d with isUserInteracting := false, userInteractionTimeout := false }
        let res := resumePolling d₁.api r
        let d₂ := { d₁ with api := res.1 }
        (match res.2.2 with
         | some st => pollCallback d₂ st
         | none => d₂, [])
      else (d, [])
  | .pollTick r =>
      if d.api.isPaused then (d, [])
      else
        match getTwinState r with
        | some st => (if d.api.pollingCallback then pollCallback d st else d, [])
        | none => (d, [])

/-- Run a sequence of dashboard events, accumulating the immediate backend
writes. -/
def runDash (d : DashboardState) : List DashEvent → DashboardState × List Write
  | [] => (d, [])
  | e :: es =>
      let r₁ := dashStep d e
      let r₂ := runDash r₁.1 es
      (r₂.1, r₁.2 ++ r₂.2)

/-- A representative dashboard state right after `startDittoPolling` wired
the polling callback: no interaction in progress, polling active. -/
def initialDashboard : DashboardState :=
  { isUserInteracting := false, userInteractionTimeout := false,
    controlUpdateTimeout := none,
    ui := { tempControl := 50, tempDisplay := 50, rpmControl := 60,
            rpmDisplay := 60, alarmStatus := "NORMAL" },
    model := { temperature := 25, rpm := 0, status := "NORMAL" },
    api := startPolling initAPIState 1 }

/-- A continuous RPM drag from 60 to 90 (browser-rate `input` events, two of
the intermediate debounce timers firing mid-drag), before the user releases
the slider at 90. -/
def rpmDragTrace : List DashEvent :=
  [.rpmInput 60, .rpmInput 65, .debounceFire, .rpmInput 70, .rpmInput 75,
   .rpmInput 80, .debounceFire, .rpmInput 85, .rpmInput 89, .rpmInput 90]

/-! ### Auxiliary lemmas -/

/-- Rounding always produces an integer value. -/
lemma jsRound_den (q : ℚ) : (jsRound q).den = 1 :=
  Rat.den_intCast _

/-- `parseInt` on an integer-valued number is the identity. -/
lemma jsParseInt_intCast (n : ℤ) : jsParseInt (n : ℚ) = n := by
  unfold jsParseInt
  split <;> simp

/-- One window push preserves the capacity bound. -/
lemma pushWindow_length_le (N : ℕ) (w : List ℚ) (x : ℚ) (h : w.length ≤ N) :
    (pushWindow N w x).length ≤ N := by
  unfold pushWindow
  by_cases hc : (w ++ [x]).length > N
  · rw [if_pos hc]
    simp only [List.length_tail, List.length_append, List.length_singleton]
    omega
  · rw [if_neg hc]
    simp only [List.length_append, List.length_singleton] at hc ⊢
    omega

/-- Feeding any sample stream into an empty window through `pushWindow`
retains exactly the most recent `N` samples, in arrival (FIFO) order. -/
lemma foldl_pushWindow_drop (N : ℕ) (hN : 0 < N) (xs : List ℚ) :
    List.foldl (pushWindow N) [] xs = xs.drop (xs.length - N) := by
  induction xs using List.reverseRecOn with
  | nil => simp
  | append_singleton l a ih =>
    rw [List.foldl_append, List.foldl_cons, List.foldl_nil, ih]
    by_cases h : l.length < N
    · have h0 : l.length - N = 0 := by omega
      have h0' : (l ++ [a]).length - N = 0 := by
        simp only [List.length_append, List.length_singleton]; omega
      rw [h0, h0', List.drop_zero, List.drop_zero]
      unfold pushWindow
      rw [if_neg]
      simp only [List.length_append, List.length_singleton, gt_iff_lt, not_lt]
      omega
    · push_neg at h
      have hlen : (l.drop (l.length - N)).length = N := by
        simp only [List.length_drop]; omega
      unfold pushWindow
      rw [if_pos]
      · rw [← List.drop_one, List.drop_append_eq_append_drop, List.drop_drop, hlen]
        have h1 : 1 - N = 0 := by omega
        have h2 : (l ++ [a]).length - N = ((l.length + 1) - N) := by
          simp only [List.length_append, List.length_singleton]
        rw [h1, List.drop_zero, h2, List.drop_append_eq_append_drop]
        have h3 : l.length + 1 - N - l.length = 0 := by omega
        have h4 : l.length - N + 1 = l.length + 1 - N := by omega
        rw [h3, List.drop_zero, h4]
      · simp only [List.length_append, List.length_singleton, hlen, gt_iff_lt]
        omega

/-- The latency window of an iterated `recordLatency` is the iterated window
push. -/
lemma foldl_recordLatency_latency (m : Metrics) (xs : List ℚ) :
    (List.foldl (fun acc v => (recordLatency acc v).1) m xs).latency
      = List.foldl (pushWindow sampleSize) m.latency xs := by
  induction xs generalizing m with
  | nil => rfl
  | cons x xs ih =>
    rw [List.foldl_cons, List.foldl_cons, ih]
    rfl

/-- `checkMemoryUsage` never touches the fps window. -/
lemma checkMemoryUsage_fps (m : Metrics) (heap : Option ℚ) :
    (checkMemoryUsage m heap).fps = m.fps := by
  unfold checkMemoryUsage
  cases heap <;> rfl

/-- Along any event trace the callback flag implies an active interval, and
the callback flag is exactly the started-not-stopped fold. -/
lemma runAPI_callback_char (es : List APIEvent) :
    ∀ s : DittoAPIState, (s.pollingCallback = true → s.pollingInterval.isSome = true) →
      ((es.foldl applyAPIEvent s).pollingCallback = true →
        (es.foldl applyAPIEvent s).pollingInterval.isSome = true)
      ∧ (es.foldl applyAPIEvent s).pollingCallback
          = es.foldl callbackFlagStep s.pollingCallback := by
  induction es with
  | nil => exact fun s hs => ⟨hs, rfl⟩
  | cons e es ih =>
    intro s hs
    have hstep : ((applyAPIEvent s e).pollingCallback = true →
          (applyAPIEvent s e).pollingInterval.isSome = true)
        ∧ (applyAPIEvent s e).pollingCallback = callbackFlagStep s.pollingCallback e := by
      cases e with
      | start tid => exact ⟨fun _ => rfl, rfl⟩
      | stop =>
        by_cases hi : s.pollingInterval.isSome
        · constructor
          · intro hc
            simp [applyAPIEvent, stopPolling, hi] at hc
          · simp [applyAPIEvent, stopPolling, hi, callbackFlagStep]
        · have hcb : s.pollingCallback = false := by
            cases hb : s.pollingCallback
            · rfl
            · exact absurd (hs hb) hi
          constructor
          · intro hc
            simp [applyAPIEvent, stopPolling, hi, hcb] at hc
          · simp [applyAPIEvent, stopPolling, hi, hcb, callbackFlagStep]
      | pause => exact ⟨fun h => hs h, rfl⟩
      | resume r =>
        have hr : applyAPIEvent s (.resume r) = { s with isPaused := false } := by
          by_cases hc : s.pollingCallback <;> simp [applyAPIEvent, resumePolling, hc]
        rw [hr]
        exact ⟨fun h => hs h, rfl⟩
      | tick r => exact ⟨hs, rfl⟩
    obtain ⟨h1, h2⟩ := ih (applyAPIEvent s e) hstep.1
    refine ⟨h1, ?_⟩
    rw [List.foldl_cons, List.foldl_cons, h2, hstep.2]

/-! ### Claim theorems -/

/-- C4: every `resumePolling()` call made after a pause, while a polling
callback is registered, issues exactly one immediate out-of-band fetch,
clears the paused flag so the regular interval resumes, leaves the interval
and callback registration unchanged, and hands exactly the fetched state to
the callback. -/
theorem resumePolling_immediate_fetch (s : DittoAPIState) (r : HttpResponse)
    (hp : s.isPaused = true) (hc : s.pollingCallback = true) :
    (resumePolling s r).2.1 = 1
    ∧ (resumePolling s r).1.isPaused = false
    ∧ (resumePolling s r).1.pollingInterval = s.pollingInterval
    ∧ (resumePolling s r).1.pollingCallback = true
    ∧ (resumePolling s r).2.2 = getTwinState r := by
  simp [resumePolling, hc]

/-- Witness for C4 at a concrete paused state with an active callback. -/
theorem resumePolling_immediate_fetch_witness :
    (⟨some 5, true, true⟩ : DittoAPIState).isPaused = true
    ∧ (⟨some 5, true, true⟩ : DittoAPIState).pollingCallback = true
    ∧ (resumePolling ⟨some 5, true, true⟩ HttpResponse.networkFailure).2.1 = 1
    ∧ (resumePolling ⟨some 5, true, true⟩ HttpResponse.networkFailure).1.isPaused = false := by
  have h := resumePolling_immediate_fetch ⟨some 5, true, true⟩
    HttpResponse.networkFailure rfl rfl
  exact ⟨rfl, rfl, h.1, h.2.1⟩

/-- C6: `updateProperty` returns `true` exactly when the PUT completed with
HTTP 204 (any other status or a thrown network error gives `false`), records
the round-trip latency with the metrics collector on every completed request,
and records nothing when the request threw. -/
theorem updateProperty_status_and_latency (r : PutResult) (lat : ℚ)
    (m : Metrics) (status : ℕ) :
    ((updateProperty r lat m).1 = true ↔ r = PutResult.response 204)
    ∧ (updateProperty (PutResult.response status) lat m).2 = (recordLatency m lat).1
    ∧ (updateProperty PutResult.networkFailure lat m).2 = m := by
  refine ⟨?_, rfl, rfl⟩
  cases r with
  | response st => simp [updateProperty]
  | networkFailure => simp [updateProperty]

/-- C8: the temperature mapper's colour bands, intensity and emissive flag,
and the concrete scenario `Temperature = 120` (hot colour, intensity `0.6`,
not emissive). -/
theorem mapTemperature_banding (t : ℚ) (fw : String) :
    (t < 50 → (mapTemperature t fw).color = 0x0088ff)
    ∧ (50 ≤ t → t < 100 → (mapTemperature t fw).color = 0xffaa00)
    ∧ (100 ≤ t → (mapTemperature t fw).color = 0xff0000)
    ∧ (mapTemperature t fw).intensity = min 1 (t / 200)
    ∧ ((mapTemperature t fw).emissive = true ↔ 150 < t)
    ∧ mapTemperature 120 fw = ⟨0xff0000, 3/5, false⟩ := by
  refine ⟨?_, ?_, ?_, rfl, ?_, ?_⟩
  · intro h; simp [mapTemperature, h]
  · intro h1 h2; simp [mapTemperature, h2, not_lt.mpr h1]
  · intro h
    simp [mapTemperature, not_lt.mpr h, not_lt.mpr (by linarith : (50:ℚ) ≤ t)]
  · simp [mapTemperature]
  · simp only [mapTemperature, TempVisual.mk.injEq]
    norm_num [min_def]

/-- Witness for C8 exercising one input in each temperature band. -/
theorem mapTemperature_banding_witness :
    ((30:ℚ) < 50 ∧ (mapTemperature 30 "threejs").color = 0x0088ff)
    ∧ ((50:ℚ) ≤ 70 ∧ (70:ℚ) < 100 ∧ (mapTemperature 70 "threejs").color = 0xffaa00)
    ∧ ((100:ℚ) ≤ 120 ∧ (mapTemperature 120 "threejs").color = 0xff0000) := by
  refine ⟨⟨by norm_num, (mapTemperature_banding 30 "threejs").1 (by norm_num)⟩,
          ⟨by norm_num, by norm_num,
           (mapTemperature_banding 70 "threejs").2.1 (by norm_num) (by norm_num)⟩,
          ⟨by norm_num, (mapTemperature_banding 120 "threejs").2.2.1 (by norm_num)⟩⟩

/-- C10: each aggregate getter returns 0 on an empty rolling window (the
division by the window length is reached only when the window is non-empty),
so an export taken before any samples were recorded reports 0 for fps,
memory and latency. -/
theorem averages_zero_when_empty (m : Metrics) (ts : String)
    (hf : m.fps = []) (hm : m.memory = []) (hl : m.latency = []) :
    getAverageFPS m = 0 ∧ getAverageMemory m = 0 ∧ getAverageLatency m = 0
    ∧ exportToCSV m ts
        = [CSVLine.header, CSVLine.row ⟨m.framework, ts, 0, 0, m.loadTime, 0⟩] := by
  have h1 : getAverageFPS m = 0 := by simp [getAverageFPS, hf]
  have h2 : getAverageMemory m = 0 := by simp [getAverageMemory, hm]
  have h3 : getAverageLatency m = 0 := by simp [getAverageLatency, hl]
  exact ⟨h1, h2, h3, by simp [exportToCSV, h1, h2, h3]⟩

/-- Witness for C10 on the freshly reset metrics object. -/
theorem averages_zero_when_empty_witness :
    initialMetrics.fps = [] ∧ initialMetrics.memory = []
    ∧ initialMetrics.latency = []
    ∧ getAverageFPS initialMetrics = 0
    ∧ exportToCSV initialMetrics "2025-01-01T00:00:00.000Z"
        = [CSVLine.header,
           CSVLine.row ⟨none, "2025-01-01T00:00:00.000Z", 0, 0, 0, 0⟩] := by
  have h := averages_zero_when_empty initialMetrics "2025-01-01T00:00:00.000Z"
    rfl rfl rfl
  exact ⟨rfl, rfl, rfl, h.1, h.2.2.2⟩

/-- C5: the fetch layer swallows every failure — a network error, a non-OK
HTTP response, or any thrown error produces the `null` sentinel; a failed
fetch cycle invokes no callback and does not disturb the client state, a
`null` result is never forwarded to the callback as a state, and a later
successful cycle delivers again. -/
theorem getTwinState_failure_swallowed (status : ℕ) (body : Option TwinState)
    (s : DittoAPIState) (r r₂ : HttpResponse) (st : TwinState) (e : String) :
    getTwinState HttpResponse.networkFailure = none
    ∧ getTwinState (HttpResponse.response false status body) = none
    ∧ (getTwinStateBody r = Except.error e → getTwinState r = none)
    ∧ (getTwinState r = none → pollTick s r = (if s.isPaused then 0 else 1, none))
    ∧ applyAPIEvent s (APIEvent.tick r) = s
    ∧ ((pollTick s r).2 = some st → getTwinState r = some st)
    ∧ (getTwinState r₂ = some st → s.isPaused = false → s.pollingCallback = true →
        pollTick s r₂ = (1, some st)) := by
  refine ⟨rfl, by simp [getTwinState, getTwinStateBody], ?_, ?_, rfl, ?_, ?_⟩
  · intro h; simp [getTwinState, h]
  · intro h
    by_cases hp : s.isPaused <;> simp [pollTick, hp, h]
  · intro h
    by_cases hp : s.isPaused
    · simp [pollTick, hp] at h
    · cases hg : getTwinState r with
      | none => simp [pollTick, hp, hg] at h
      | some st' =>
        by_cases hc : s.pollingCallback
        · simp [pollTick, hp, hg, hc] at h
          rw [h]
        · simp [pollTick, hp, hg, hc] at h
  · intro h hp hc
    simp [pollTick, hp, h, hc]

/-- Witness for C5: two failing fetches deliver nothing while polling stays
active, then a successful fetch delivers its state. -/
theorem getTwinState_failure_swallowed_witness :
    getTwinState HttpResponse.networkFailure = none
    ∧ pollTick ⟨some 1, true, false⟩ HttpResponse.networkFailure = (1, none)
    ∧ pollTick ⟨some 1, true, false⟩ (HttpResponse.response false 503 none) = (1, none)
    ∧ applyAPIEvent ⟨some 1, true, false⟩ (APIEvent.tick HttpResponse.networkFailure)
        = ⟨some 1, true, false⟩
    ∧ pollTick ⟨some 1, true, false⟩
        (HttpResponse.response true 200 (some ⟨some 70, some 80, some "ACTIVE"⟩))
        = (1, some ⟨some 70, some 80, some "ACTIVE"⟩) := by
  have h₁ := getTwinState_failure_swallowed 503 none ⟨some 1, true, false⟩
    HttpResponse.networkFailure
    (HttpResponse.response true 200 (some ⟨some 70, some 80, some "ACTIVE"⟩))
    ⟨some 70, some 80, some "ACTIVE"⟩ "network error"
  have h₂ := getTwinState_failure_swallowed 503 none ⟨some 1, true, false⟩
    (HttpResponse.response false 503 none)
    (HttpResponse.response true 200 (some ⟨some 70, some 80, some "ACTIVE"⟩))
    ⟨some 70, some 80, some "ACTIVE"⟩ "network error"
  refine ⟨h₁.1, ?_, ?_, h₁.2.2.2.2.1, h₁.2.2.2.2.2.2 rfl rfl rfl⟩
  · have := h₁.2.2.2.1 rfl
    simpa using this
  · have := h₂.2.2.2.1 rfl
    simpa using this

/-- C9: `stopPolling()` clears both the timer and the registered callback in
every reachable client state, so a subsequent `resumePolling()` issues no
fetch and delivers nothing; and `resumePolling()`'s immediate fetch happens
exactly when some `startPolling` call has not been followed by a
`stopPolling`. -/
theorem stopPolling_clears_timer_and_callback (es : List APIEvent) (r : HttpResponse) :
    (stopPolling (runAPI es)).pollingInterval = none
    ∧ (stopPolling (runAPI es)).pollingCallback = false
    ∧ (resumePolling (stopPolling (runAPI es)) r).2.1 = 0
    ∧ (resumePolling (stopPolling (runAPI es)) r).2.2 = none
    ∧ ((resumePolling (runAPI es) r).2.1 = 1 ↔ startedNotStopped es = true) := by
  obtain ⟨hinv, hchar⟩ := runAPI_callback_char es initAPIState (by intro h; simp [initAPIState] at h)
  have hc : (runAPI es).pollingCallback = startedNotStopped es := hchar
  have hcb : (stopPolling (runAPI es)).pollingCallback = false := by
    by_cases hi : (runAPI es).pollingInterval.isSome
    · simp [stopPolling, hi]
    · have hb : (runAPI es).pollingCallback = false := by
        cases hb' : (runAPI es).pollingCallback
        · rfl
        · exact absurd (hinv hb') hi
      simp [stopPolling, hi, hb]
  have hpi : (stopPolling (runAPI es)).pollingInterval = none := by
    by_cases hi : (runAPI es).pollingInterval.isSome
    · simp [stopPolling, hi]
    · simp only [stopPolling, hi, if_false]
      exact Option.not_isSome_iff_eq_none.mp hi
  refine ⟨hpi, ?_, ?_, ?_, ?_⟩
  · exact hcb
  · simp [resumePolling, hcb]
  · simp [resumePolling, hcb]
  · rw [← hc]
    by_cases hb : (runAPI es).pollingCallback <;> simp [resumePolling, hb]

/-- C2: every rolling window (fps, memory, latency) stays within the
configured capacity; a stream of samples fed through the window keeps
exactly the most recent `sampleSize` samples in FIFO order (after
`sampleSize + 1` samples the oldest one has been evicted), and each reported
average is the rounded arithmetic mean of exactly those latest samples. -/
theorem rolling_windows_bounded_fifo (m : Metrics) (cfg : MetricsConfig)
    (x ts now : ℚ) (heap : Option ℚ) (xs ys zs : List ℚ)
    (hl : m.latency.length ≤ sampleSize) (hf : m.fps.length ≤ sampleSize)
    (hm : m.memory.length ≤ sampleSize)
    (hy : ys.length = sampleSize + 1) (hz : sampleSize ≤ zs.length) :
    (recordLatency m x).1.latency.length ≤ sampleSize
    ∧ (trackFrame m cfg ts now heap).1.fps.length ≤ sampleSize
    ∧ (checkMemoryUsage m heap).memory.length ≤ sampleSize
    ∧ List.foldl (pushWindow sampleSize) [] xs = xs.drop (xs.length - sampleSize)
    ∧ List.foldl (pushWindow sampleSize) [] ys = ys.tail
    ∧ (List.foldl (fun acc v => (recordLatency acc v).1) initialMetrics xs).latency
        = xs.drop (xs.length - sampleSize)
    ∧ getAverageLatency { m with latency := List.foldl (pushWindow sampleSize) [] zs }
        = jsRound (listSum (zs.drop (zs.length - sampleSize)) / (sampleSize : ℚ))
    ∧ getAverageFPS { m with fps := List.foldl (pushWindow sampleSize) [] zs }
        = jsRound (listSum (zs.drop (zs.length - sampleSize)) / (sampleSize : ℚ))
    ∧ getAverageMemory { m with memory := List.foldl (pushWindow sampleSize) [] zs }
        = jsRound (listSum (zs.drop (zs.length - sampleSize)) / (sampleSize : ℚ)) := by
  have hN : 0 < sampleSize := by decide
  have hzlen : (zs.drop (zs.length - sampleSize)).length = sampleSize := by
    simp only [List.length_drop]; omega
  refine ⟨?_, ?_, ?_, foldl_pushWindow_drop sampleSize hN xs, ?_, ?_, ?_, ?_, ?_⟩
  · exact pushWindow_length_le sampleSize m.latency x hl
  · simp only [trackFrame]
    split
    · exact hf
    · split
      · rw [checkMemoryUsage_fps]
        exact pushWindow_length_le sampleSize m.fps _ hf
      · exact pushWindow_length_le sampleSize m.fps _ hf
  · unfold checkMemoryUsage
    cases heap with
    | none => exact hm
    | some b => exact pushWindow_length_le sampleSize m.memory _ hm
  · rw [foldl_pushWindow_drop sampleSize hN ys, hy]
    have h1 : sampleSize + 1 - sampleSize = 1 := by omega
    rw [h1, List.drop_one]
  · rw [foldl_recordLatency_latency]
    exact foldl_pushWindow_drop sampleSize hN xs
  · rw [foldl_pushWindow_drop sampleSize hN zs]
    unfold getAverageLatency
    dsimp only
    rw [hzlen, if_neg (by decide)]
  · rw [foldl_pushWindow_drop sampleSize hN zs]
    unfold getAverageFPS
    dsimp only
    rw [hzlen, if_neg (by decide)]
  · rw [foldl_pushWindow_drop sampleSize hN zs]
    unfold getAverageMemory
    dsimp only
    rw [hzlen, if_neg (by decide)]

/-- Witness for C2 on a stream of 61 samples fed into an empty window. -/
theorem rolling_windows_bounded_fifo_witness :
    initialMetrics.latency.length ≤ sampleSize
    ∧ (List.replicate 61 (5:ℚ)).length = sampleSize + 1
    ∧ sampleSize ≤ (List.replicate 61 (5:ℚ)).length
    ∧ (recordLatency initialMetrics 7).1.latency.length ≤ sampleSize
    ∧ List.foldl (pushWindow sampleSize) [] (List.replicate 61 (5:ℚ))
        = (List.replicate 61 (5:ℚ)).tail
    ∧ getAverageLatency
        { initialMetrics with
          latency := List.foldl (pushWindow sampleSize) [] (List.replicate 61 (5:ℚ)) }
        = jsRound (listSum ((List.replicate 61 (5:ℚ)).drop
            ((List.replicate 61 (5:ℚ)).length - sampleSize)) / (sampleSize : ℚ)) := by
  have h := rolling_windows_bounded_fifo initialMetrics ⟨[], 0, 0, false⟩ 7 0 0 none
    (List.replicate 61 (5:ℚ)) (List.replicate 61 (5:ℚ)) (List.replicate 61 (5:ℚ))
    (by decide) (by decide) (by decide) (by decide) (by decide)
  exact ⟨by decide, by decide, by decide, h.1, h.2.2.2.2.1, h.2.2.2.2.2.2.1⟩

/-- C3 counterexample: the CSV export writes the recorded load time verbatim,
so when a fractional load time (here `123.5` ms) was recorded the load-time
field of the data row is not an integer (its denominator is 2). -/
theorem exportToCSV_loadTime_not_integer :
    exportToCSV (recordLoadTime initialMetrics (247/2)) "2025-01-01T00:00:00.000Z"
      = [CSVLine.header,
         CSVLine.row ⟨none, "2025-01-01T00:00:00.000Z", 0, 0, 247/2, 0⟩]
    ∧ ((247 : ℚ)/2).den = 2 := by
  constructor
  · rfl
  · norm_num

/-- C3 (amended): the export is exactly one header line plus one data row;
the row's fields are the framework label, the timestamp, the rounded mean
fps, the rounded mean memory and the rounded mean latency (all
integer-valued), but the load-time field carries the recorded load time
verbatim (an integer only when the recorded value is one); for fps samples
`[58, 60, 62]` and memory samples `[120, 124]` the row contains fps `60` and
memory `122`. -/
theorem exportToCSV_row_fields (m : Metrics) (ts : String) :
    exportToCSV m ts
      = [CSVLine.header,
         CSVLine.row ⟨m.framework, ts, getAverageFPS m, getAverageMemory m,
                      m.loadTime, getAverageLatency m⟩]
    ∧ (getAverageFPS m).den = 1 ∧ (getAverageMemory m).den = 1
    ∧ (getAverageLatency m).den = 1
    ∧ exportToCSV { initialMetrics with fps := [58, 60, 62], memory := [120, 124] } ts
      = [CSVLine.header, CSVLine.row ⟨none, ts, 60, 122, 0, 0⟩] := by
  refine ⟨rfl, ?_, ?_, ?_, ?_⟩
  · unfold getAverageFPS
    split
    · exact Rat.den_ofNat 0
    · exact jsRound_den _
  · unfold getAverageMemory
    split
    · exact Rat.den_ofNat 0
    · exact jsRound_den _
  · unfold getAverageLatency
    split
    · exact Rat.den_ofNat 0
    · exact jsRound_den _
  · simp only [exportToCSV, getAverageFPS, getAverageMemory, getAverageLatency,
      initialMetrics, listSum, jsRound, List.foldl_cons, List.foldl_nil,
      List.length_cons, List.length_nil, List.cons.injEq, CSVLine.row.injEq,
      CSVRow.mk.injEq]
    norm_num

/-- C7: the slider `change` handler (drag release) issues exactly one
immediate, unconditional write of the control's final value, regardless of
the pending debounce timer (which it neither consults nor cancels), while
`input` events issue no immediate write (they only re-arm the debounce); in
the concrete drag from 60 to 90 released at 90 — with intermediate debounced
writes firing mid-drag — the release step issues exactly one write of 90. -/
theorem commit_write_bypasses_debounce (d : DashboardState) (v : ℤ) :
    (dashStep d DashEvent.rpmChange).2
      = [⟨"Mixer", "RPM", WriteValue.num (jsParseInt d.ui.rpmControl)⟩]
    ∧ (dashStep d DashEvent.rpmChange).1.controlUpdateTimeout = d.controlUpdateTimeout
    ∧ (dashStep d (DashEvent.rpmInput v)).2 = []
    ∧ (dashStep (runDash initialDashboard rpmDragTrace).1 DashEvent.rpmChange).2
        = [⟨"Mixer", "RPM", WriteValue.num 90⟩] := by
  refine ⟨rfl, rfl, rfl, ?_⟩
  have h : (runDash initialDashboard rpmDragTrace).1.ui.rpmControl = ((90:ℤ) : ℚ) := rfl
  show [(⟨"Mixer", "RPM",
    WriteValue.num (jsParseInt (runDash initialDashboard rpmDragTrace).1.ui.rpmControl)⟩ : Write)]
      = [⟨"Mixer", "RPM", WriteValue.num 90⟩]
  rw [h, jsParseInt_intCast]

/-- C1: while the user-interaction flag is set, a delivered poll result
changes neither the dashboard state (in particular the displayed control
values) nor the adapter's model cache; once the quiescence timer fires the
flag is cleared and the resume-triggered fetch — and every subsequent poll
delivery — is applied to both the adapter cache and the UI controls. -/
theorem polling_suppressed_while_interacting (d : DashboardState)
    (r : HttpResponse) (st : TwinState) :
    (d.isUserInteracting = true →
      pollCallback d st = d
      ∧ (dashStep d (DashEvent.pollTick r)).1 = d
      ∧ (dashStep d (DashEvent.pollTick r)).2 = [])
    ∧ (d.userInteractionTimeout = true →
        (dashStep d (DashEvent.interactionTimerFire r)).1.isUserInteracting = false)
    ∧ (d.userInteractionTimeout = true → d.api.pollingCallback = true →
        getTwinState r = some st →
        (dashStep d (DashEvent.interactionTimerFire r)).1.model
            = updateMixerFromTwin d.model st
        ∧ (dashStep d (DashEvent.interactionTimerFire r)).1.ui
            = updateDashboardUI st false d.ui)
    ∧ (d.isUserInteracting = false → d.api.isPaused = false →
        d.api.pollingCallback = true → getTwinState r = some st →
        (dashStep d (DashEvent.pollTick r)).1.model = updateMixerFromTwin d.model st
        ∧ (dashStep d (DashEvent.pollTick r)).1.ui = updateDashboardUI st false d.ui) := by
  refine ⟨?_, ?_, ?_, ?_⟩
  · intro hint
    have hpc : ∀ st', pollCallback d st' = d := fun st' => by
      simp [pollCallback, hint]
    have hstep : dashStep d (DashEvent.pollTick r) = (d, []) := by
      by_cases hpz : d.api.isPaused
      · simp [dashStep, hpz]
      · cases hg : getTwinState r with
        | none => simp [dashStep, hpz, hg]
        | some st' =>
          by_cases hc : d.api.pollingCallback <;> simp [dashStep, hpz, hg, hc, hpc]
    exact ⟨hpc st, by rw [hstep], by rw [hstep]⟩
  · intro htm
    by_cases hc : d.api.pollingCallback
    · cases hg : getTwinState r with
      | some st' => simp [dashStep, htm, resumePolling, hc, hg, pollCallback]
      | none => simp [dashStep, htm, resumePolling, hc, hg]
    · simp [dashStep, htm, resumePolling, hc]
  · intro htm hc hg
    constructor <;>
      simp [dashStep, htm, resumePolling, hc, hg, pollCallback]
  · intro hint hpz hc hg
    constructor <;>
      simp [dashStep, hpz, hg, hc, pollCallback, hint]

/-- The dashboard mid-drag: interaction flag up, quiescence timer armed,
polling paused. -/
def interactingDashboard : DashboardState :=
  { initialDashboard with
      isUserInteracting := true
      userInteractionTimeout := true
      api := pausePolling initialDashboard.api }

/-- A sample twin document delivered by a successful poll. -/
def sampleTwin : TwinState := ⟨some 70, some 80, some "ACTIVE"⟩

/-- A successful HTTP response carrying `sampleTwin`. -/
def okResponse : HttpResponse := HttpResponse.response true 200 (some sampleTwin)

/-- Witness for C1: a delivered poll result leaves an interacting dashboard
untouched; after the quiescence timer fires the flag is down; and on an idle
dashboard the same poll result is applied to the UI controls. -/
theorem polling_suppressed_while_interacting_witness :
    interactingDashboard.isUserInteracting = true
    ∧ (dashStep interactingDashboard (DashEvent.pollTick okResponse)).1
        = interactingDashboard
    ∧ (dashStep interactingDashboard
        (DashEvent.interactionTimerFire okResponse)).1.isUserInteracting = false
    ∧ (dashStep initialDashboard (DashEvent.pollTick okResponse)).1.ui
        = updateDashboardUI sampleTwin false initialDashboard.ui := by
  have h := polling_suppressed_while_interacting interactingDashboard okResponse sampleTwin
  have h' := polling_suppressed_while_interacting initialDashboard okResponse sampleTwin
  exact ⟨rfl, (h.1 rfl).2.1, h.2.1 rfl, (h'.2.2.2 rfl rfl rfl rfl).2⟩
